import Mathlib

/-!
Verification of the `generate_ics.py` iCalendar generator
(`skills/utils/event-to-calendar/event-to-calendar/scripts/generate_ics.py`).

Strings are embedded as `List Char` (Python `str` is a sequence of code
points).  Each Python function is translated into an executable Lean
definition; `sys.exit(1)` after a printed diagnostic is modelled by the
`Except ExitErr` error monad, where `ExitErr` carries the exit code and the
stderr message.  The two external inputs of `generate_ics` — the fresh UID
and the `DTSTAMP` clock value — are passed as explicit parameters, so the
embedding is a pure function of (event record, uid, dtstamp).
-/

set_option autoImplicit false

namespace ICS

/-! ### `fold_line` (source lines 32-50)

`fold_line(line, max_length=75)`: if the line fits in `max_length`
characters it is returned unchanged; otherwise the first `max_length`
characters are repeatedly cut off as a segment and the remainder is
prefixed with a single space, and the segments are joined with CRLF.
`generate_ics` only ever calls it at the default `max_length = 75`, which
is what we embed. -/

/-- The segment list built by the `while` loop of `fold_line`
(`result` plus the final `result.append(current)`). -/
def foldSegs (current : List Char) : List (List Char) :=
  if _h : current.length > 75 then
    current.take 75 :: foldSegs (' ' :: current.drop 75)
  else
    [current]
termination_by current.length
decreasing_by
  simp only [List.length_cons, List.length_drop]
  omega

/-- Python `'\r\n'.join(segs)`. -/
def joinCRLF : List (List Char) → List Char
  | [] => []
  | [l] => l
  | l :: ls => l ++ '\r' :: '\n' :: joinCRLF ls

/-- `fold_line` at the default limit of 75 characters. -/
def fold_line (line : List Char) : List Char :=
  joinCRLF (foldSegs line)

/-! ### `escape_text` (source lines 53-62) -/

/-- Python `text.replace(old, new)` for a single-character `old`. -/
def replaceChar (c : Char) (r : List Char) : List Char → List Char
  | [] => []
  | x :: xs => if x = c then r ++ replaceChar c r xs else x :: replaceChar c r xs

/-- `escape_text(text)`: `None`/empty input yields the empty string;
otherwise backslash, comma, semicolon and newline are replaced in that
order (backslash first). -/
def escape_text (text : Option (List Char)) : List Char :=
  match text with
  | none => []
  | some t =>
    if t.isEmpty then []
    else
      replaceChar '\n' ['\\', 'n']
        (replaceChar ';' ['\\', ';']
          (replaceChar ',' ['\\', ',']
            (replaceChar '\\' ['\\', '\\'] t)))

/-- Per-character description of the escaping map: the four reserved
characters receive a backslash escape, every other character passes
through unmodified.  (This is the specification-side reading of the
sequential `replace` calls; the equivalence is proved below.) -/
def escChar (c : Char) : List Char :=
  if c = '\\' then ['\\', '\\']
  else if c = ',' then ['\\', ',']
  else if c = ';' then ['\\', ';']
  else if c = '\n' then ['\\', 'n']
  else [c]

/-! ### `format_datetime` (source lines 65-92)

The source parses with `datetime.fromisoformat` (after replacing a `Z`
suffix by `+00:00`) and re-renders with `strftime('%Y%m%dT%H%M%S')`.
`fromisoformat` is Python standard library code; we embed its documented
grammar `YYYY-MM-DD[*HH[:MM[:SS[.fff[fff]]]][+HH:MM[:SS[.ffffff]]]]`
(any single character may separate date and time), with the range checks
performed by the `datetime`/`timezone` constructors.  `strftime` never
performs timezone conversion: it prints the stored wall-clock fields. -/

/-- The wall-clock fields and optional UTC offset (in seconds) of a parsed
Python `datetime`. -/
structure PyDatetime where
  year : Nat
  month : Nat
  day : Nat
  hour : Nat
  minute : Nat
  second : Nat
  microsecond : Nat
  utcoffset : Option Int
deriving DecidableEq

def digitVal (c : Char) : Option Nat :=
  if '0' ≤ c ∧ c ≤ '9' then some (c.toNat - 48) else none

def digits2 : List Char → Option (Nat × List Char)
  | a :: b :: rest =>
    match digitVal a, digitVal b with
    | some x, some y => some (10 * x + y, rest)
    | _, _ => none
  | _ => none

def digits4 : List Char → Option (Nat × List Char)
  | a :: b :: c :: d :: rest =>
    match digitVal a, digitVal b, digitVal c, digitVal d with
    | some x, some y, some z, some w => some (1000 * x + 100 * y + 10 * z + w, rest)
    | _, _, _, _ => none
  | _ => none

def isLeap (y : Nat) : Bool :=
  y % 4 == 0 && (y % 100 != 0 || y % 400 == 0)

def daysInMonth (y m : Nat) : Nat :=
  if m = 2 then (if isLeap y then 29 else 28)
  else if m = 4 ∨ m = 6 ∨ m = 9 ∨ m = 11 then 30
  else 31

/-- Fractional seconds: exactly 3 or 6 digits after the decimal point,
yielding microseconds. -/
def parseFrac (s : List Char) : Option (Nat × List Char) :=
  let ds := s.takeWhile Char.isDigit
  let rest := s.dropWhile Char.isDigit
  let val := ds.foldl (fun acc c => 10 * acc + (c.toNat - 48)) 0
  if ds.length = 3 then some (val * 1000, rest)
  else if ds.length = 6 then some (val, rest)
  else none

/-- Time of day `HH[:MM[:SS[.fff[fff]]]]`; returns
(hour, minute, second, microsecond, rest). -/
def parseTimeOfDay (s : List Char) : Option (Nat × Nat × Nat × Nat × List Char) := do
  let (h, r1) ← digits2 s
  match r1 with
  | ':' :: r2 => do
    let (m, r3) ← digits2 r2
    match r3 with
    | ':' :: r4 => do
      let (sec, r5) ← digits2 r4
      match r5 with
      | '.' :: r6 => do
        let (us, r7) ← parseFrac r6
        pure (h, m, sec, us, r7)
      | _ => pure (h, m, sec, 0, r5)
    | _ => pure (h, m, 0, 0, r3)
  | _ => pure (h, 0, 0, 0, r1)

/-- UTC offset after the sign: `HH:MM[:SS[.ffffff]]`; returns the
magnitude in seconds (offset microseconds are accepted and dropped). -/
def parseOffsetTail (s : List Char) : Option (Nat × List Char) := do
  let (oh, r1) ← digits2 s
  match r1 with
  | ':' :: r2 => do
    let (om, r3) ← digits2 r2
    match r3 with
    | ':' :: r4 => do
      let (os, r5) ← digits2 r4
      match r5 with
      | '.' :: r6 => do
        let (_, r7) ← parseFrac r6
        pure (oh * 3600 + om * 60 + os, r7)
      | _ => pure (oh * 3600 + om * 60 + os, r5)
    | _ => pure (oh * 3600 + om * 60, r3)
  | _ => none

/-- Model of Python `datetime.fromisoformat`: `YYYY-MM-DD`, then
optionally one separator character and a time of day, then optionally a
signed UTC offset.  The offset is recorded, never applied to the
wall-clock fields.  Out-of-range components fail exactly as the
`datetime`/`timezone` constructors do. -/
def fromisoformat (s : List Char) : Option PyDatetime := do
  let (y, r1) ← digits4 s
  match r1 with
  | '-' :: r2 => do
    let (mo, r3) ← digits2 r2
    match r3 with
    | '-' :: r4 => do
      let (d, r5) ← digits2 r4
      if 1 ≤ y ∧ 1 ≤ mo ∧ mo ≤ 12 ∧ 1 ≤ d ∧ d ≤ daysInMonth y mo then
        match r5 with
        | [] => pure ⟨y, mo, d, 0, 0, 0, 0, none⟩
        | _sep :: r6 => do
          let (h, mi, sec, us, r7) ← parseTimeOfDay r6
          if h ≤ 23 ∧ mi ≤ 59 ∧ sec ≤ 59 then
            match r7 with
            | [] => pure ⟨y, mo, d, h, mi, sec, us, none⟩
            | '+' :: r8 => do
              let (off, r9) ← parseOffsetTail r8
              if r9 = [] ∧ off < 86400 then
                pure ⟨y, mo, d, h, mi, sec, us, some (Int.ofNat off)⟩
              else none
            | '-' :: r8 => do
              let (off, r9) ← parseOffsetTail r8
              if r9 = [] ∧ off < 86400 then
                pure ⟨y, mo, d, h, mi, sec, us, some (-(Int.ofNat off))⟩
              else none
            | _ => none
          else none
      else none
    | _ => none
  | _ => none

def digitChar (n : Nat) : Char := Char.ofNat (48 + n)

def pad2 (n : Nat) : List Char := [digitChar (n / 10 % 10), digitChar (n % 10)]

def pad4 (n : Nat) : List Char :=
  [digitChar (n / 1000 % 10), digitChar (n / 100 % 10), digitChar (n / 10 % 10),
   digitChar (n % 10)]

/-- `dt.strftime('%Y%m%dT%H%M%S')`: the stored wall-clock fields, zero
padded, with no zone conversion and no zone indicator. -/
def strftime (dt : PyDatetime) : List Char :=
  pad4 dt.year ++ pad2 dt.month ++ pad2 dt.day ++
    'T' :: (pad2 dt.hour ++ pad2 dt.minute ++ pad2 dt.second)

/-- Models `print(..., file=sys.stderr)` followed by `sys.exit(code)`:
the process exit code and the diagnostic written to stderr. -/
structure ExitErr where
  code : Nat
  msg : List Char
deriving DecidableEq

/-- The f-string `Error parsing datetime '{dt_str}': {e}` (the exception
text of `fromisoformat` names the string it was given). -/
def dtErrMsg (dt_str : List Char) : List Char :=
  "Error parsing datetime ".data ++ [Char.ofNat 39] ++ dt_str ++ [Char.ofNat 39] ++
    ": Invalid isoformat string".data

/-- The branch on line 83: strings containing `Z` or `+`, or more than
two hyphens, take the "already has timezone info" path, where `Z` is
first replaced by `+00:00`. -/
def branch_input (dt_str : List Char) : List Char :=
  if ('Z' ∈ dt_str) ∨ ('+' ∈ dt_str) ∨ (dt_str.count '-' > 2) then
    replaceChar 'Z' "+00:00".data dt_str
  else
    dt_str

/-- `format_datetime(dt_str, timezone=None)`.  The `timezone` parameter is
accepted but never read (exactly as in the source).  A parse failure
prints a diagnostic naming `dt_str` and exits with status 1. -/
def format_datetime (dt_str : List Char) (timezone : Option (List Char)) :
    Except ExitErr (List Char) :=
  match fromisoformat (branch_input dt_str) with
  | some dt => Except.ok (strftime dt)
  | none => Except.error ⟨1, dtErrMsg dt_str⟩

/-! ### `generate_ics` (source lines 94-226)

The fresh UID (`uuid.uuid4()@claude.ai`) and the clock reading
(`datetime.now(utc)` rendered as `YYYYMMDDTHHMMSSZ`) are the only
external inputs of the function; they are passed in as the `uid` and
`dtstamp` parameters.  Writing the result to `output_path`/stdout is the
sink and is not modelled; the returned string is exactly the
`ics_content` the source writes. -/

/-- The keyword parameters of `generate_ics`, in source order.  Optional
free-text fields are `Option (List Char)`; Python truthiness (`if field:`)
identifies `None` with the empty string.  `attachments` is `None` or a
list in the source; both falsy values collapse to `[]`. -/
structure EventRecord where
  title : List Char
  start : List Char
  end_ : List Char
  timezone : List Char
  location : Option (List Char)
  description : Option (List Char)
  url : Option (List Char)
  organizer : Option (List Char)
  organizer_email : Option (List Char)
  categories : Option (List Char)
  status : List Char
  image : Option (List Char)
  attachments : List (List Char)
  conference_url : Option (List Char)
  geo : Option (List Char)
deriving DecidableEq

/-- Python truthiness of an optional string field. -/
def truthy : Option (List Char) → Bool
  | none => false
  | some s => !s.isEmpty

/-- The `ATTACH` line for one attachment URI: MIME type inferred from the
lowercased URI suffix, first match wins (source lines 186-197).
`Char.toLower` models `str.lower` (the suffixes involved are ASCII). -/
def attach_line (attachment : List Char) : List Char :=
  if ".pdf".data.isSuffixOf (attachment.map Char.toLower) then
    "ATTACH;FMTTYPE=application/pdf:".data ++ attachment
  else if ".jpg".data.isSuffixOf (attachment.map Char.toLower)
      || ".jpeg".data.isSuffixOf (attachment.map Char.toLower) then
    "ATTACH;FMTTYPE=image/jpeg:".data ++ attachment
  else if ".png".data.isSuffixOf (attachment.map Char.toLower) then
    "ATTACH;FMTTYPE=image/png:".data ++ attachment
  else if ".doc".data.isSuffixOf (attachment.map Char.toLower)
      || ".docx".data.isSuffixOf (attachment.map Char.toLower) then
    "ATTACH;FMTTYPE=application/msword:".data ++ attachment
  else
    "ATTACH:".data ++ attachment

/-- The logical `lines` list of `generate_ics` (source lines 148-208),
before folding. -/
def build_lines (ev : EventRecord) (dtstart_formatted dtend_formatted uid dtstamp : List Char) :
    List (List Char) :=
  ["BEGIN:VCALENDAR".data,
   "VERSION:2.0".data,
   "PRODID:-//Claude//Event to Calendar Skill//EN".data,
   "CALSCALE:GREGORIAN".data,
   "METHOD:PUBLISH".data,
   "BEGIN:VEVENT".data,
   "UID:".data ++ uid,
   "DTSTAMP:".data ++ dtstamp,
   "DTSTART;TZID=".data ++ ev.timezone ++ ":".data ++ dtstart_formatted,
   "DTEND;TZID=".data ++ ev.timezone ++ ":".data ++ dtend_formatted,
   "SUMMARY:".data ++ escape_text (some ev.title),
   "STATUS:".data ++ ev.status]
  ++ (if truthy ev.location then ["LOCATION:".data ++ escape_text ev.location] else [])
  ++ (if truthy ev.description then ["DESCRIPTION:".data ++ escape_text ev.description] else [])
  ++ (if truthy ev.url then ["URL:".data ++ ev.url.getD []] else [])
  ++ (if truthy ev.organizer then
        [if truthy ev.organizer_email then
           "ORGANIZER;CN=".data ++ escape_text ev.organizer ++ ":mailto:".data ++
             ev.organizer_email.getD []
         else
           "ORGANIZER;CN=".data ++ escape_text ev.organizer ++ ":invalid:nomail".data]
      else [])
  ++ (if truthy ev.categories then ["CATEGORIES:".data ++ escape_text ev.categories] else [])
  ++ (if truthy ev.image then ["IMAGE;VALUE=URI:".data ++ ev.image.getD []] else [])
  ++ (if ev.attachments.isEmpty then [] else ev.attachments.map attach_line)
  ++ (if truthy ev.conference_url then
        ["CONFERENCE;VALUE=URI;FEATURE=VIDEO:".data ++ ev.conference_url.getD []]
      else [])
  ++ (if truthy ev.geo then ["GEO:".data ++ ev.geo.getD []] else [])
  ++ ["END:VEVENT".data, "END:VCALENDAR".data]

/-- `'\r\n'.join(fold_line(l) for l in lines) + '\r\n'` (source lines
210-216). -/
def render (lines : List (List Char)) : List Char :=
  joinCRLF (lines.map fold_line) ++ "\r\n".data

/-- `generate_ics`: format both datetimes (a failure in either exits the
process, modelled by `Except.error`), then assemble, fold and join. -/
def generate_ics (ev : EventRecord) (uid dtstamp : List Char) :
    Except ExitErr (List Char) :=
  match format_datetime ev.start (some ev.timezone) with
  | Except.error e => Except.error e
  | Except.ok dtstart_formatted =>
    match format_datetime ev.end_ (some ev.timezone) with
    | Except.error e => Except.error e
    | Except.ok dtend_formatted =>
      Except.ok (render (build_lines ev dtstart_formatted dtend_formatted uid dtstamp))

/-! ### Auxiliary executable predicates used in the statements -/

/-- `begins p l`: `l` starts with the prefix `p` (used to pick the
`ORGANIZER`/`ATTACH` lines out of the assembled document). -/
def begins : List Char → List Char → Bool
  | [], _ => true
  | _ :: _, [] => false
  | a :: ps, b :: ls => a == b && begins ps ls

/-- Does `s` start with the three characters CR, LF, space? -/
def startsWithCRLFSp (s : List Char) : Bool :=
  match s with
  | a :: b :: c :: _ => a == '\r' && b == '\n' && c == ' '
  | _ => false

/-- Does `s` contain CR LF space as a contiguous substring? -/
def hasCRLFSp : List Char → Bool
  | [] => false
  | c :: rest => startsWithCRLFSp (c :: rest) || hasCRLFSp rest

/-- Remove every occurrence of the fold break sequence CR LF space
(scanning left to right). -/
def removeCRLFSp : List Char → List Char
  | [] => []
  | c :: rest =>
    if startsWithCRLFSp (c :: rest) then removeCRLFSp (rest.drop 2)
    else c :: removeCRLFSp rest
termination_by s => s.length
decreasing_by
  · simp only [List.length_cons, List.length_drop]
    omega
  · simp

/-! ### Concrete records used by the witnesses -/

/-- The end-to-end scenario of spec §8: required fields only. -/
def ev1 : EventRecord :=
  ⟨"Test Event".data, "2025-03-15T19:00:00".data, "2025-03-15T22:00:00".data,
   "America/Los_Angeles".data, none, none, none, none, none, none,
   "CONFIRMED".data, none, [], none, none⟩

/-- An event whose `start` does not parse. -/
def evBad : EventRecord :=
  ⟨"Test Event".data, "not-a-date".data, "2025-03-15T22:00:00".data,
   "America/Los_Angeles".data, none, none, none, none, none, none,
   "CONFIRMED".data, none, [], none, none⟩

/-! ### Lemmas about `escape_text` -/

theorem replaceChar_append (c : Char) (r a b : List Char) :
    replaceChar c r (a ++ b) = replaceChar c r a ++ replaceChar c r b := by
  induction a with
  | nil => rfl
  | cons x xs ih =>
    by_cases h : x = c <;> simp [replaceChar, h, ih]

theorem replaceChar_cons (c : Char) (r : List Char) (x : Char) (xs : List Char) :
    replaceChar c r (x :: xs) = (if x = c then r else [x]) ++ replaceChar c r xs := by
  by_cases h : x = c <;> simp [replaceChar, h]

/-- The nested `replace` chain of `escape_text` on a non-empty argument. -/
def escCore (t : List Char) : List Char :=
  replaceChar '\n' ['\\', 'n']
    (replaceChar ';' ['\\', ';']
      (replaceChar ',' ['\\', ',']
        (replaceChar '\\' ['\\', '\\'] t)))

theorem escCore_append (a b : List Char) :
    escCore (a ++ b) = escCore a ++ escCore b := by
  simp [escCore, replaceChar_append]

theorem escCore_singleton (x : Char) : escCore [x] = escChar x := by
  by_cases h1 : x = '\\'
  · subst h1; rfl
  · by_cases h2 : x = ','
    · subst h2; rfl
    · by_cases h3 : x = ';'
      · subst h3; rfl
      · by_cases h4 : x = '\n'
        · subst h4; rfl
        · simp [escCore, escChar, replaceChar, h1, h2, h3, h4]

theorem escCore_eq_bind (t : List Char) : escCore t = t.flatMap escChar := by
  induction t with
  | nil => rfl
  | cons x xs ih =>
    have : escCore (x :: xs) = escCore ([x] ++ xs) := rfl
    rw [this, escCore_append, escCore_singleton, List.flatMap_cons, ih]

theorem escape_text_some (t : List Char) :
    escape_text (some t) = t.flatMap escChar := by
  cases t with
  | nil => rfl
  | cons x xs =>
    show escCore (x :: xs) = (x :: xs).flatMap escChar
    exact escCore_eq_bind (x :: xs)

theorem one_le_escChar_length (x : Char) : 1 ≤ (escChar x).length := by
  unfold escChar
  split
  · simp
  · split
    · simp
    · split
      · simp
      · split <;> simp

theorem length_le_bind_escChar (t : List Char) :
    t.length ≤ (t.flatMap escChar).length := by
  induction t with
  | nil => simp
  | cons x xs ih =>
    simp only [List.flatMap_cons, List.length_append, List.length_cons]
    have := one_le_escChar_length x
    omega

theorem backslash_mem_escChar {c : Char}
    (h : c = '\\' ∨ c = ',' ∨ c = ';' ∨ c = '\n') : '\\' ∈ escChar c := by
  rcases h with h | h | h | h <;> subst h <;> decide

theorem backslash_mem_bind {t : List Char} {c : Char} (hc : c ∈ t)
    (h : c = '\\' ∨ c = ',' ∨ c = ';' ∨ c = '\n') : '\\' ∈ t.flatMap escChar :=
  List.mem_flatMap.mpr ⟨c, hc, backslash_mem_escChar h⟩

theorem length_lt_bind_escChar {t : List Char} (h : '\\' ∈ t) :
    t.length < (t.flatMap escChar).length := by
  induction t with
  | nil => cases h
  | cons x xs ih =>
    simp only [List.flatMap_cons, List.length_append, List.length_cons]
    rcases List.mem_cons.mp h with rfl | hmem
    · have h2 : (escChar '\\').length = 2 := by decide
      have := length_le_bind_escChar xs
      omega
    · have := one_le_escChar_length x
      have := ih hmem
      omega

/-! ### Lemmas about `fold_line` -/

theorem foldSegs_of_le {s : List Char} (h : s.length ≤ 75) : foldSegs s = [s] := by
  rw [foldSegs]
  exact dif_neg (by omega)

theorem foldSegs_of_gt {s : List Char} (h : s.length > 75) :
    foldSegs s = s.take 75 :: foldSegs (' ' :: s.drop 75) := by
  rw [foldSegs]
  exact dif_pos h

theorem foldSegs_ne_nil (s : List Char) : foldSegs s ≠ [] := by
  rw [foldSegs]
  split <;> simp

theorem fold_line_of_le {s : List Char} (h : s.length ≤ 75) : fold_line s = s := by
  rw [fold_line, foldSegs_of_le h]
  rfl

theorem joinCRLF_cons_cons (a b : List Char) (bs : List (List Char)) :
    joinCRLF (a :: b :: bs) = a ++ '\r' :: '\n' :: joinCRLF (b :: bs) := rfl

/-- The folded text of a non-empty line starts with the line's first
character (continuation breaks are inserted strictly later). -/
theorem joinCRLF_foldSegs_cons (x : Char) (xs : List Char) :
    ∃ t, joinCRLF (foldSegs (x :: xs)) = x :: t := by
  by_cases h : (x :: xs).length > 75
  · rw [foldSegs_of_gt h]
    rcases hne : foldSegs (' ' :: (x :: xs).drop 75) with _ | ⟨b, bs⟩
    · exact absurd hne (foldSegs_ne_nil _)
    · have ht : (x :: xs).take 75 = x :: xs.take 74 := rfl
      rw [ht, joinCRLF_cons_cons, List.cons_append]
      exact ⟨_, rfl⟩
  · rw [foldSegs_of_le (by omega)]
    exact ⟨xs, rfl⟩

/-! ### Lemmas about the CR LF space break sequence -/

theorem sw_cons_false {c : Char} (h : (c == '\r') = false) (t : List Char) :
    startsWithCRLFSp (c :: t) = false := by
  rcases t with _ | ⟨b, _ | ⟨d, t'⟩⟩
  · rfl
  · rfl
  · simp [startsWithCRLFSp, h]

theorem sw_space (t : List Char) : startsWithCRLFSp (' ' :: t) = false :=
  sw_cons_false (by decide) t

theorem rm_cons {c : Char} {rest : List Char}
    (h : startsWithCRLFSp (c :: rest) = false) :
    removeCRLFSp (c :: rest) = c :: removeCRLFSp rest := by
  rw [removeCRLFSp]
  simp [h]

theorem rm_id {s : List Char} (h : hasCRLFSp s = false) : removeCRLFSp s = s := by
  induction s with
  | nil => rw [removeCRLFSp]
  | cons c rest ih =>
    rw [hasCRLFSp, Bool.or_eq_false_iff] at h
    rw [rm_cons h.1, ih h.2]

theorem has_append_of_left {l : List Char} (r : List Char)
    (h : hasCRLFSp l = true) : hasCRLFSp (l ++ r) = true := by
  induction l with
  | nil => cases h
  | cons c l' ih =>
    rw [List.cons_append, hasCRLFSp, Bool.or_eq_true]
    rw [hasCRLFSp, Bool.or_eq_true] at h
    rcases h with h1 | h2
    · left
      rcases l' with _ | ⟨b, _ | ⟨d, t⟩⟩
      · cases h1
      · rw [show startsWithCRLFSp [c, b] = false from rfl] at h1
        cases h1
      · exact h1
    · right
      exact ih h2

theorem has_append_of_right (l : List Char) {r : List Char}
    (h : hasCRLFSp r = true) : hasCRLFSp (l ++ r) = true := by
  induction l with
  | nil => exact h
  | cons c l' ih =>
    rw [List.cons_append, hasCRLFSp, Bool.or_eq_true]
    right
    exact ih

theorem has_false_left {l r : List Char} (h : hasCRLFSp (l ++ r) = false) :
    hasCRLFSp l = false := by
  cases hl : hasCRLFSp l with
  | false => rfl
  | true => exact absurd (h ▸ has_append_of_left r hl) (by decide)

theorem has_false_right {l r : List Char} (h : hasCRLFSp (l ++ r) = false) :
    hasCRLFSp r = false := by
  cases hr : hasCRLFSp r with
  | false => rfl
  | true => exact absurd (h ▸ has_append_of_right l hr) (by decide)

/-- Removing occurrences of CR LF space from `p ++ CR LF SP ++ t` when `p`
contains none: the explicit break collapses and `p` survives. -/
theorem rm_append_break {p : List Char} (t : List Char)
    (hp : hasCRLFSp p = false) :
    removeCRLFSp (p ++ '\r' :: '\n' :: ' ' :: t) = p ++ removeCRLFSp t := by
  induction p with
  | nil =>
    rw [List.nil_append, removeCRLFSp]
    simp [startsWithCRLFSp]
  | cons c p' ih =>
    rw [hasCRLFSp, Bool.or_eq_false_iff] at hp
    have hsw : startsWithCRLFSp (c :: (p' ++ '\r' :: '\n' :: ' ' :: t)) = false := by
      rcases p' with _ | ⟨b, _ | ⟨d, t'⟩⟩
      · simp [startsWithCRLFSp]
      · simp [startsWithCRLFSp]
      · exact hp.1
    rw [List.cons_append, rm_cons hsw, ih hp.2, List.cons_append]

/-- Unfolding is lossless: removing every CR LF space from the folded
segments of `s` restores `s`, provided `s` itself contains no such
sequence. -/
theorem remove_join_foldSegs (s : List Char) (h : hasCRLFSp s = false) :
    removeCRLFSp (joinCRLF (foldSegs s)) = s := by
  by_cases hl : s.length > 75
  · rw [foldSegs_of_gt hl]
    obtain ⟨t, ht⟩ := joinCRLF_foldSegs_cons ' ' (s.drop 75)
    rcases hfs : foldSegs (' ' :: s.drop 75) with _ | ⟨b, bs⟩
    · exact absurd hfs (foldSegs_ne_nil _)
    rw [hfs] at ht
    rw [joinCRLF_cons_cons, ht]
    have hpt : hasCRLFSp (s.take 75) = false :=
      has_false_left (l := s.take 75) (r := s.drop 75)
        (by rw [List.take_append_drop]; exact h)
    have hdrop : hasCRLFSp (s.drop 75) = false :=
      has_false_right (l := s.take 75) (r := s.drop 75)
        (by rw [List.take_append_drop]; exact h)
    have hsp : hasCRLFSp (' ' :: s.drop 75) = false := by
      rw [hasCRLFSp, Bool.or_eq_false_iff]
      exact ⟨sw_space _, hdrop⟩
    have ih := remove_join_foldSegs (' ' :: s.drop 75) hsp
    rw [hfs, ht, rm_cons (sw_space t)] at ih
    have hrt : removeCRLFSp t = s.drop 75 := by
      injection ih
    rw [rm_append_break t hpt, hrt, List.take_append_drop]
  · rw [foldSegs_of_le (by omega)]
    exact rm_id h
termination_by s.length
decreasing_by
  simp only [List.length_cons, List.length_drop]
  omega

/-! ### Claims -/

/-- C2: `escape_text` applies exactly the substitutions backslash to
double-backslash, comma to backslash-comma, semicolon to
backslash-semicolon, newline to the two-character sequence backslash-n
(backslash first, so later steps never re-escape), every other character
passes through unmodified, and absent (`None`) or empty input yields the
empty string without failing. -/
theorem claim_C2 :
    (∀ t : List Char, escape_text (some t) = t.flatMap escChar) ∧
    escape_text none = [] ∧ escape_text (some []) = [] :=
  ⟨escape_text_some, rfl, rfl⟩

/-- C3: `fold_line` at the default limit returns every string of length at
most 75 unchanged, and maps every string of length exactly 76 to its first
75 characters, then CR LF, then a single space, then the 76th character
(the drop of the first 75 characters, which has length 1). -/
theorem claim_C3 :
    (∀ s : List Char, s.length ≤ 75 → fold_line s = s) ∧
    (∀ s : List Char, s.length = 76 →
      fold_line s = s.take 75 ++ '\r' :: '\n' :: ' ' :: s.drop 75 ∧
      (s.drop 75).length = 1) := by
  constructor
  · intro s hs
    exact fold_line_of_le hs
  · intro s hs
    constructor
    · rw [fold_line, foldSegs_of_gt (by omega),
        foldSegs_of_le (by simp only [List.length_cons, List.length_drop, hs]; omega),
        joinCRLF_cons_cons]
      rfl
    · simp [List.length_drop, hs]

/-- C3 witness: a short string is returned unchanged and a 76-character
string is folded after its 75th character. -/
theorem claim_C3_witness :
    fold_line "abc".data = "abc".data ∧
    fold_line (List.replicate 76 'a') =
      (List.replicate 76 'a').take 75 ++
        '\r' :: '\n' :: ' ' :: (List.replicate 76 'a').drop 75 :=
  ⟨claim_C3.1 "abc".data (by decide),
   (claim_C3.2 (List.replicate 76 'a') (by decide)).1⟩

/-- C9: escaping is not idempotent — for every string containing a
backslash, comma, semicolon, or newline, applying `escape_text` twice
differs from applying it once, because the backslashes introduced by the
first application are themselves escaped by the second. -/
theorem claim_C9 (x : List Char)
    (h : '\\' ∈ x ∨ ',' ∈ x ∨ ';' ∈ x ∨ '\n' ∈ x) :
    escape_text (some (escape_text (some x))) ≠ escape_text (some x) := by
  rw [escape_text_some, escape_text_some]
  intro heq
  have hb : '\\' ∈ x.flatMap escChar := by
    rcases h with h | h | h | h
    · exact List.mem_flatMap.mpr ⟨'\\', h, by decide⟩
    · exact List.mem_flatMap.mpr ⟨',', h, by decide⟩
    · exact List.mem_flatMap.mpr ⟨';', h, by decide⟩
    · exact List.mem_flatMap.mpr ⟨'\n', h, by decide⟩
  have hlt := length_lt_bind_escChar hb
  rw [heq] at hlt
  exact lt_irrefl _ hlt

/-- C9 witness: a lone comma escapes to backslash-comma, which double
escapes to double-backslash-comma. -/
theorem claim_C9_witness :
    escape_text (some (escape_text (some [','] ))) ≠ escape_text (some [',']) :=
  claim_C9 [','] (Or.inr (Or.inl (by decide)))

/-- C10: folding is unfoldable without loss — for every string that does
not contain the three-character sequence CR LF space, removing every
occurrence of CR LF space from the folded text restores the string
exactly. -/
theorem claim_C10 (s : List Char) (h : hasCRLFSp s = false) :
    removeCRLFSp (fold_line s) = s := by
  rw [fold_line]
  exact remove_join_foldSegs s h

/-- C10 witness: a 100-character line is folded and unfolds back to
itself. -/
theorem claim_C10_witness :
    removeCRLFSp (fold_line (List.replicate 100 'x')) = List.replicate 100 'x' :=
  claim_C10 (List.replicate 100 'x') (by decide)

/-- C4: for every datetime string the embedded parser accepts (on the
branch-selected input, with any `Z` replaced by `+00:00`),
`format_datetime` returns exactly the 15-character token `YYYYMMDDTHHMMSS`
built from the wall-clock fields as parsed from the input; the recorded
offset and microseconds never influence the output, and the separate
`timezone` argument never affects the result. -/
theorem claim_C4 (s : List Char) (tz : Option (List Char)) (dt : PyDatetime)
    (h : fromisoformat (branch_input s) = some dt) :
    format_datetime s tz =
      Except.ok (pad4 dt.year ++ pad2 dt.month ++ pad2 dt.day ++
        'T' :: (pad2 dt.hour ++ pad2 dt.minute ++ pad2 dt.second)) ∧
    (strftime dt).length = 15 ∧
    (∀ tz', format_datetime s tz' = format_datetime s tz) ∧
    (∀ us off,
      strftime ⟨dt.year, dt.month, dt.day, dt.hour, dt.minute, dt.second, us, off⟩ =
        strftime dt) := by
  refine ⟨?_, ?_, fun tz' => rfl, fun us off => rfl⟩
  · rw [format_datetime, h]
    rfl
  · simp [strftime, pad4, pad2]

/-- C4 witness: both `2025-03-15T19:00:00` and `2025-03-15T19:00:00Z`
normalize to `20250315T190000` — the trailing `Z` is discarded without
zone conversion. -/
theorem claim_C4_witness :
    format_datetime "2025-03-15T19:00:00Z".data none =
      Except.ok "20250315T190000".data ∧
    format_datetime "2025-03-15T19:00:00".data none =
      Except.ok "20250315T190000".data :=
  ⟨(claim_C4 "2025-03-15T19:00:00Z".data none
      ⟨2025, 3, 15, 19, 0, 0, 0, some (Int.ofNat 0)⟩ (by rfl)).1.trans (by rfl),
   (claim_C4 "2025-03-15T19:00:00".data none
      ⟨2025, 3, 15, 19, 0, 0, 0, none⟩ (by rfl)).1.trans (by rfl)⟩

/-- C5: when `start` (or, with `start` valid, `end`) does not parse,
`generate_ics` terminates with the error produced by `format_datetime`:
exit code 1, a diagnostic whose text contains the offending string, and no
document content — the `Except.error` result is produced before any line
of the document is assembled, so nothing is written to the destination. -/
theorem claim_C5 (ev : EventRecord) (uid dtstamp : List Char) :
    (∀ e, format_datetime ev.start (some ev.timezone) = Except.error e →
      generate_ics ev uid dtstamp = Except.error e ∧ e.code = 1 ∧
        ∃ u v, e.msg = u ++ ev.start ++ v) ∧
    (∀ ds e, format_datetime ev.start (some ev.timezone) = Except.ok ds →
      format_datetime ev.end_ (some ev.timezone) = Except.error e →
      generate_ics ev uid dtstamp = Except.error e ∧ e.code = 1 ∧
        ∃ u v, e.msg = u ++ ev.end_ ++ v) := by
  constructor
  · intro e he
    have hgen : generate_ics ev uid dtstamp = Except.error e := by
      rw [generate_ics, he]
    rw [format_datetime] at he
    cases hfi : fromisoformat (branch_input ev.start) with
    | some dt =>
      rw [hfi] at he
      exact absurd he (by simp)
    | none =>
      rw [hfi] at he
      have hinj : (⟨1, dtErrMsg ev.start⟩ : ExitErr) = e := by
        injection he
      subst hinj
      refine ⟨hgen, rfl,
        ⟨"Error parsing datetime ".data ++ [Char.ofNat 39],
         [Char.ofNat 39] ++ ": Invalid isoformat string".data, ?_⟩⟩
      simp [dtErrMsg, List.append_assoc]
  · intro ds e hok he
    have hgen : generate_ics ev uid dtstamp = Except.error e := by
      rw [generate_ics, hok, he]
    rw [format_datetime] at he
    cases hfi : fromisoformat (branch_input ev.end_) with
    | some dt =>
      rw [hfi] at he
      exact absurd he (by simp)
    | none =>
      rw [hfi] at he
      have hinj : (⟨1, dtErrMsg ev.end_⟩ : ExitErr) = e := by
        injection he
      subst hinj
      refine ⟨hgen, rfl,
        ⟨"Error parsing datetime ".data ++ [Char.ofNat 39],
         [Char.ofNat 39] ++ ": Invalid isoformat string".data, ?_⟩⟩
      simp [dtErrMsg, List.append_assoc]

/-- C5 witness: an event whose `start` is `not-a-date` makes
`generate_ics` fail with exit code 1 and a diagnostic naming the
string. -/
theorem claim_C5_witness :
    generate_ics evBad "u1@claude.ai".data "20250101T000000Z".data =
      Except.error ⟨1, dtErrMsg "not-a-date".data⟩ ∧
    (ExitErr.mk 1 (dtErrMsg "not-a-date".data)).code = 1 ∧
    ∃ u v, (ExitErr.mk 1 (dtErrMsg "not-a-date".data)).msg =
      u ++ "not-a-date".data ++ v :=
  (claim_C5 evBad "u1@claude.ai".data "20250101T000000Z".data).1
    ⟨1, dtErrMsg "not-a-date".data⟩ (by rfl)

/-- C1: for an event with valid datetimes, status `CONFIRMED`, and every
optional field absent or the empty string (attachments empty), the
assembled document is exactly the fixed preamble, then
`UID`, `DTSTAMP`, `DTSTART;TZID=...`, `DTEND;TZID=...`, `SUMMARY`,
`STATUS:CONFIRMED` in that order, then `END:VEVENT`, `END:VCALENDAR`
— an empty-string optional field produces no line, exactly as an absent
one does. -/
theorem claim_C1 (ev : EventRecord) (uid dtstamp ds de : List Char)
    (hs : format_datetime ev.start (some ev.timezone) = Except.ok ds)
    (he : format_datetime ev.end_ (some ev.timezone) = Except.ok de)
    (hstatus : ev.status = "CONFIRMED".data)
    (hloc : truthy ev.location = false)
    (hdesc : truthy ev.description = false)
    (hurl : truthy ev.url = false)
    (horg : truthy ev.organizer = false)
    (hoe : truthy ev.organizer_email = false)
    (hcat : truthy ev.categories = false)
    (himg : truthy ev.image = false)
    (hatt : ev.attachments = [])
    (hconf : truthy ev.conference_url = false)
    (hgeo : truthy ev.geo = false) :
    generate_ics ev uid dtstamp = Except.ok (render
      ["BEGIN:VCALENDAR".data,
       "VERSION:2.0".data,
       "PRODID:-//Claude//Event to Calendar Skill//EN".data,
       "CALSCALE:GREGORIAN".data,
       "METHOD:PUBLISH".data,
       "BEGIN:VEVENT".data,
       "UID:".data ++ uid,
       "DTSTAMP:".data ++ dtstamp,
       "DTSTART;TZID=".data ++ ev.timezone ++ ":".data ++ ds,
       "DTEND;TZID=".data ++ ev.timezone ++ ":".data ++ de,
       "SUMMARY:".data ++ escape_text (some ev.title),
       "STATUS:CONFIRMED".data,
       "END:VEVENT".data,
       "END:VCALENDAR".data]) := by
  rw [generate_ics, hs, he]
  have hsc : "STATUS:".data ++ "CONFIRMED".data = "STATUS:CONFIRMED".data := rfl
  simp [build_lines, hloc, hdesc, hurl, horg, hcat, himg, hatt, hconf, hgeo,
    hstatus, hsc]

/-- C1 witness: the end-to-end scenario of spec §8 with only required
fields set. -/
theorem claim_C1_witness :
    generate_ics ev1 "u1@claude.ai".data "20250101T000000Z".data =
      Except.ok (render
        ["BEGIN:VCALENDAR".data,
         "VERSION:2.0".data,
         "PRODID:-//Claude//Event to Calendar Skill//EN".data,
         "CALSCALE:GREGORIAN".data,
         "METHOD:PUBLISH".data,
         "BEGIN:VEVENT".data,
         "UID:".data ++ "u1@claude.ai".data,
         "DTSTAMP:".data ++ "20250101T000000Z".data,
         "DTSTART;TZID=".data ++ "America/Los_Angeles".data ++ ":".data ++
           "20250315T190000".data,
         "DTEND;TZID=".data ++ "America/Los_Angeles".data ++ ":".data ++
           "20250315T220000".data,
         "SUMMARY:".data ++ escape_text (some "Test Event".data),
         "STATUS:CONFIRMED".data,
         "END:VEVENT".data,
         "END:VCALENDAR".data]) :=
  claim_C1 ev1 "u1@claude.ai".data "20250101T000000Z".data
    "20250315T190000".data "20250315T220000".data
    (by rfl) (by rfl) rfl rfl rfl rfl rfl rfl rfl rfl rfl rfl rfl

theorem org_not_attach (x : List Char) :
    begins "ORGANIZER".data (attach_line x) = false := by
  rw [attach_line]
  split
  · rfl
  · split
    · rfl
    · split
      · rfl
      · split
        · rfl
        · rfl

theorem att_begins_attach (x : List Char) :
    begins "ATTACH".data (attach_line x) = true := by
  rw [attach_line]
  split
  · rfl
  · split
    · rfl
    · split
      · rfl
      · split
        · rfl
        · rfl

/-- C6: the assembled document contains exactly one
`ORGANIZER;CN=<escaped name>:mailto:<email>` line when both organizer
name and email are truthy, exactly one
`ORGANIZER;CN=<escaped name>:invalid:nomail` line when the name is truthy
but the email is not, and no ORGANIZER line at all when the name is
absent/empty, regardless of the email. -/
theorem claim_C6 (ev : EventRecord) (ds de uid dtstamp : List Char) :
    List.filter (fun l => begins "ORGANIZER".data l)
        (build_lines ev ds de uid dtstamp) =
      (if truthy ev.organizer then
        [if truthy ev.organizer_email then
           "ORGANIZER;CN=".data ++ escape_text ev.organizer ++ ":mailto:".data ++
             ev.organizer_email.getD []
         else
           "ORGANIZER;CN=".data ++ escape_text ev.organizer ++
             ":invalid:nomail".data]
       else []) := by
  have h1 : List.filter (fun l => begins "ORGANIZER".data l)
      ["BEGIN:VCALENDAR".data,
       "VERSION:2.0".data,
       "PRODID:-//Claude//Event to Calendar Skill//EN".data,
       "CALSCALE:GREGORIAN".data,
       "METHOD:PUBLISH".data,
       "BEGIN:VEVENT".data,
       "UID:".data ++ uid,
       "DTSTAMP:".data ++ dtstamp,
       "DTSTART;TZID=".data ++ ev.timezone ++ ":".data ++ ds,
       "DTEND;TZID=".data ++ ev.timezone ++ ":".data ++ de,
       "SUMMARY:".data ++ escape_text (some ev.title),
       "STATUS:".data ++ ev.status] = [] := rfl
  have h2 : List.filter (fun l => begins "ORGANIZER".data l)
      (if truthy ev.location then ["LOCATION:".data ++ escape_text ev.location]
       else []) = [] := by
    cases ht : truthy ev.location <;> rfl
  have h3 : List.filter (fun l => begins "ORGANIZER".data l)
      (if truthy ev.description then
        ["DESCRIPTION:".data ++ escape_text ev.description]
       else []) = [] := by
    cases ht : truthy ev.description <;> rfl
  have h4 : List.filter (fun l => begins "ORGANIZER".data l)
      (if truthy ev.url then ["URL:".data ++ ev.url.getD []] else []) = [] := by
    cases ht : truthy ev.url <;> rfl
  have h5 : List.filter (fun l => begins "ORGANIZER".data l)
      (if truthy ev.organizer then
        [if truthy ev.organizer_email then
           "ORGANIZER;CN=".data ++ escape_text ev.organizer ++ ":mailto:".data ++
             ev.organizer_email.getD []
         else
           "ORGANIZER;CN=".data ++ escape_text ev.organizer ++
             ":invalid:nomail".data]
       else []) =
      (if truthy ev.organizer then
        [if truthy ev.organizer_email then
           "ORGANIZER;CN=".data ++ escape_text ev.organizer ++ ":mailto:".data ++
             ev.organizer_email.getD []
         else
           "ORGANIZER;CN=".data ++ escape_text ev.organizer ++
             ":invalid:nomail".data]
       else []) := by
    cases ho : truthy ev.organizer
    · rfl
    · cases he : truthy ev.organizer_email <;> rfl
  have h6 : List.filter (fun l => begins "ORGANIZER".data l)
      (if truthy ev.categories then
        ["CATEGORIES:".data ++ escape_text ev.categories]
       else []) = [] := by
    cases ht : truthy ev.categories <;> rfl
  have h7 : List.filter (fun l => begins "ORGANIZER".data l)
      (if truthy ev.image then ["IMAGE;VALUE=URI:".data ++ ev.image.getD []]
       else []) = [] := by
    cases ht : truthy ev.image <;> rfl
  have h8 : List.filter (fun l => begins "ORGANIZER".data l)
      (if ev.attachments.isEmpty then [] else ev.attachments.map attach_line) =
      [] := by
    cases hemp : ev.attachments.isEmpty
    · rw [if_neg (by simp [hemp])]
      rw [List.filter_eq_nil_iff]
      intro a ha
      obtain ⟨x, hx, rfl⟩ := List.mem_map.mp ha
      simp [org_not_attach x]
    · rfl
  have h9 : List.filter (fun l => begins "ORGANIZER".data l)
      (if truthy ev.conference_url then
        ["CONFERENCE;VALUE=URI;FEATURE=VIDEO:".data ++ ev.conference_url.getD []]
       else []) = [] := by
    cases ht : truthy ev.conference_url <;> rfl
  have h10 : List.filter (fun l => begins "ORGANIZER".data l)
      (if truthy ev.geo then ["GEO:".data ++ ev.geo.getD []] else []) = [] := by
    cases ht : truthy ev.geo <;> rfl
  have h11 : List.filter (fun l => begins "ORGANIZER".data l)
      ["END:VEVENT".data, "END:VCALENDAR".data] = [] := rfl
  rw [build_lines]
  simp only [List.filter_append, h1, h2, h3, h4, h5, h6, h7, h8, h9, h10, h11,
    List.nil_append, List.append_nil]

/-- C7: the assembled document contains one ATTACH line per attachment
URI in input order (none for an empty list), with the MIME type inferred
by case-insensitive suffix match in the priority order `.pdf`, then
`.jpg`/`.jpeg`, then `.png`, then `.doc`/`.docx`, first match winning, and
a bare `ATTACH:<uri>` line for any other suffix — as witnessed by the
sample evaluations conjoined below. -/
theorem claim_C7 (ev : EventRecord) (ds de uid dtstamp : List Char) :
    List.filter (fun l => begins "ATTACH".data l)
        (build_lines ev ds de uid dtstamp) =
      ev.attachments.map attach_line ∧
    attach_line "a.PDF".data = "ATTACH;FMTTYPE=application/pdf:a.PDF".data ∧
    attach_line "b.JPG".data = "ATTACH;FMTTYPE=image/jpeg:b.JPG".data ∧
    attach_line "b2.jpeg".data = "ATTACH;FMTTYPE=image/jpeg:b2.jpeg".data ∧
    attach_line "c.PnG".data = "ATTACH;FMTTYPE=image/png:c.PnG".data ∧
    attach_line "d.DocX".data = "ATTACH;FMTTYPE=application/msword:d.DocX".data ∧
    attach_line "e.txt".data = "ATTACH:e.txt".data := by
  refine ⟨?_, rfl, rfl, rfl, rfl, rfl, rfl⟩
  have h1 : List.filter (fun l => begins "ATTACH".data l)
      ["BEGIN:VCALENDAR".data,
       "VERSION:2.0".data,
       "PRODID:-//Claude//Event to Calendar Skill//EN".data,
       "CALSCALE:GREGORIAN".data,
       "METHOD:PUBLISH".data,
       "BEGIN:VEVENT".data,
       "UID:".data ++ uid,
       "DTSTAMP:".data ++ dtstamp,
       "DTSTART;TZID=".data ++ ev.timezone ++ ":".data ++ ds,
       "DTEND;TZID=".data ++ ev.timezone ++ ":".data ++ de,
       "SUMMARY:".data ++ escape_text (some ev.title),
       "STATUS:".data ++ ev.status] = [] := rfl
  have h2 : List.filter (fun l => begins "ATTACH".data l)
      (if truthy ev.location then ["LOCATION:".data ++ escape_text ev.location]
       else []) = [] := by
    cases ht : truthy ev.location <;> rfl
  have h3 : List.filter (fun l => begins "ATTACH".data l)
      (if truthy ev.description then
        ["DESCRIPTION:".data ++ escape_text ev.description]
       else []) = [] := by
    cases ht : truthy ev.description <;> rfl
  have h4 : List.filter (fun l => begins "ATTACH".data l)
      (if truthy ev.url then ["URL:".data ++ ev.url.getD []] else []) = [] := by
    cases ht : truthy ev.url <;> rfl
  have h5 : List.filter (fun l => begins "ATTACH".data l)
      (if truthy ev.organizer then
        [if truthy ev.organizer_email then
           "ORGANIZER;CN=".data ++ escape_text ev.organizer ++ ":mailto:".data ++
             ev.organizer_email.getD []
         else
           "ORGANIZER;CN=".data ++ escape_text ev.organizer ++
             ":invalid:nomail".data]
       else []) = [] := by
    cases ho : truthy ev.organizer
    · rfl
    · cases he : truthy ev.organizer_email <;> rfl
  have h6 : List.filter (fun l => begins "ATTACH".data l)
      (if truthy ev.categories then
        ["CATEGORIES:".data ++ escape_text ev.categories]
       else []) = [] := by
    cases ht : truthy ev.categories <;> rfl
  have h7 : List.filter (fun l => begins "ATTACH".data l)
      (if truthy ev.image then ["IMAGE;VALUE=URI:".data ++ ev.image.getD []]
       else []) = [] := by
    cases ht : truthy ev.image <;> rfl
  have h8 : List.filter (fun l => begins "ATTACH".data l)
      (if ev.attachments.isEmpty then [] else ev.attachments.map attach_line) =
      ev.attachments.map attach_line := by
    cases hemp : ev.attachments.isEmpty
    · rw [if_neg (by simp [hemp])]
      rw [List.filter_eq_self]
      intro a ha
      obtain ⟨x, hx, rfl⟩ := List.mem_map.mp ha
      exact att_begins_attach x
    · rw [List.isEmpty_iff.mp hemp]
      rfl
  have h9 : List.filter (fun l => begins "ATTACH".data l)
      (if truthy ev.conference_url then
        ["CONFERENCE;VALUE=URI;FEATURE=VIDEO:".data ++ ev.conference_url.getD []]
       else []) = [] := by
    cases ht : truthy ev.conference_url <;> rfl
  have h10 : List.filter (fun l => begins "ATTACH".data l)
      (if truthy ev.geo then ["GEO:".data ++ ev.geo.getD []] else []) = [] := by
    cases ht : truthy ev.geo <;> rfl
  have h11 : List.filter (fun l => begins "ATTACH".data l)
      ["END:VEVENT".data, "END:VCALENDAR".data] = [] := rfl
  rw [build_lines]
  simp only [List.filter_append, h1, h2, h3, h4, h5, h6, h7, h8, h9, h10, h11,
    List.nil_append, List.append_nil]

/-- C8: the assembled line list is a pure function of the event record,
the uid and the dtstamp (in the embedding they are the only inputs), and
two runs over identical fields differ at most in the UID and DTSTAMP
lines: both line lists decompose as the same six-line preamble, then the
UID and DTSTAMP lines, then the same remainder. -/
theorem claim_C8 (ev : EventRecord)
    (ds de uid₁ dt₁ uid₂ dt₂ : List Char) :
    ∃ pre post,
      build_lines ev ds de uid₁ dt₁ =
        pre ++ ("UID:".data ++ uid₁) :: ("DTSTAMP:".data ++ dt₁) :: post ∧
      build_lines ev ds de uid₂ dt₂ =
        pre ++ ("UID:".data ++ uid₂) :: ("DTSTAMP:".data ++ dt₂) :: post ∧
      pre.length = 6 :=
  ⟨["BEGIN:VCALENDAR".data,
    "VERSION:2.0".data,
    "PRODID:-//Claude//Event to Calendar Skill//EN".data,
    "CALSCALE:GREGORIAN".data,
    "METHOD:PUBLISH".data,
    "BEGIN:VEVENT".data],
   ["DTSTART;TZID=".data ++ ev.timezone ++ ":".data ++ ds,
    "DTEND;TZID=".data ++ ev.timezone ++ ":".data ++ de,
    "SUMMARY:".data ++ escape_text (some ev.title),
    "STATUS:".data ++ ev.status]
   ++ (if truthy ev.location then ["LOCATION:".data ++ escape_text ev.location] else [])
   ++ (if truthy ev.description then
        ["DESCRIPTION:".data ++ escape_text ev.description] else [])
   ++ (if truthy ev.url then ["URL:".data ++ ev.url.getD []] else [])
   ++ (if truthy ev.organizer then
         [if truthy ev.organizer_email then
            "ORGANIZER;CN=".data ++ escape_text ev.organizer ++ ":mailto:".data ++
              ev.organizer_email.getD []
          else
            "ORGANIZER;CN=".data ++ escape_text ev.organizer ++
              ":invalid:nomail".data]
       else [])
   ++ (if truthy ev.categories then ["CATEGORIES:".data ++ escape_text ev.categories] else [])
   ++ (if truthy ev.image then ["IMAGE;VALUE=URI:".data ++ ev.image.getD []] else [])
   ++ (if ev.attachments.isEmpty then [] else ev.attachments.map attach_line)
   ++ (if truthy ev.conference_url then
         ["CONFERENCE;VALUE=URI;FEATURE=VIDEO:".data ++ ev.conference_url.getD []]
       else [])
   ++ (if truthy ev.geo then ["GEO:".data ++ ev.geo.getD []] else [])
   ++ ["END:VEVENT".data, "END:VCALENDAR".data],
   rfl, rfl, rfl⟩

end ICS
